import Mathlib

/-!
Verification of the clickhouse-operator reconciliation engine slice.

This file shallowly embeds the Go sources of the repository
(`pkg/apis/clickhouse-keeper.altinity.com/v1/type_cluster.go`,
`pkg/model/creator.go`, `pkg/controller/chi/worker-service.go`,
`pkg/apis/clickhouse.altinity.com/v1/type_attributes.go`) into Lean and
proves/refutes the spec's claims about them.

Go pointers are modelled by value types carrying an explicit `id` field
standing for the pointer identity where the source compares pointers;
Go `nil` receivers are modelled by `Option`; Go slices are Lean lists;
Go `int32`/`int` are Lean `Int` (no arithmetic here can overflow 32/64 bits);
Go maps used as label sets are association lists.
-/

/-! ## Reconcile attributes and hosts (apis/.../v1) -/

/-- Transient per-host reconcile flags (spec glossary: add/modify/remove/ready/found). -/
structure HostReconcileAttributes where
  add : Bool
  remove : Bool
  modify : Bool
  found : Bool
  ready : Bool
deriving DecidableEq, Repr

/-- Modelled from the spec: `HostReconcileAttributes.Any` is not part of the
sampled sources (only its callers in `type_cluster.go` are). The spec describes
reconcile attributes as a per-host flag set and `ExcludeReconcileAttributes` as
registering "attribute predicates"; the matcher is nil-safe and holds when some
flag raised in the predicate is also raised on the host. Both `Exclude` and
`Include` in the source invoke the very same matcher expression, so the claims
settled below do not depend on the matcher's internals. -/
def attrsAny : Option HostReconcileAttributes → Option HostReconcileAttributes → Bool
  | none, _ => false
  | _, none => false
  | some s, some t =>
    (s.add && t.add) || (s.remove && t.remove) || (s.modify && t.modify) ||
    (s.found && t.found) || (s.ready && t.ready)

/-- A leaf host (`apiChi.Host`). `id` stands for the Go pointer identity:
the exclude list of `RemoteServersGeneratorOptions` compares host pointers. -/
structure Host where
  id : Nat
  name : String
  reconcileAttributes : Option HostReconcileAttributes
deriving DecidableEq, Repr

/-! ## RemoteServersGeneratorOptions (type_cluster.go, config part) -/

/-- `RemoteServersGeneratorOptions`: per-pass exclude sets for the
remote-servers (peer list) generator. -/
structure RemoteServersGeneratorOptions where
  excludeAttributes : Option HostReconcileAttributes
  excludeHosts : List Host
deriving DecidableEq, Repr

/-- `NewRemoteServersGeneratorOptions` creates empty options. -/
def NewRemoteServersGeneratorOptions : RemoteServersGeneratorOptions :=
  { excludeAttributes := none, excludeHosts := [] }

/-- `RemoteServersGeneratorOptions.Exclude` — `o` is the possibly-nil receiver.
Mirrors the source: nil receiver returns false; then the attribute matcher;
then a pointer-equality scan of the excluded host list. -/
def RemoteServersGeneratorOptions.Exclude (o : Option RemoteServersGeneratorOptions) (host : Host) : Bool :=
  match o with
  | none => false
  | some o =>
    if attrsAny o.excludeAttributes host.reconcileAttributes then
      true
    else if o.excludeHosts.any (fun val => val.id == host.id) then
      true
    else
      false

/-- `RemoteServersGeneratorOptions.Include` — `o` is the possibly-nil receiver.
Mirrors the source, which duplicates the logic of `Exclude` with the
opposite polarity on each branch. -/
def RemoteServersGeneratorOptions.Include (o : Option RemoteServersGeneratorOptions) (host : Host) : Bool :=
  match o with
  | none => false
  | some o =>
    if attrsAny o.excludeAttributes host.reconcileAttributes then
      false
    else if o.excludeHosts.any (fun val => val.id == host.id) then
      false
    else
      true

/-! ## C1: Include vs Exclude -/

/-! ## ChkCluster object model (type_cluster.go) -/

/-- `ChkShard`: a named sub-grouping holding an ordered sequence of hosts.
`id` stands for the Go pointer identity of the shard object. -/
structure ChkShard where
  id : Nat
  name : String
  hosts : List Host
deriving DecidableEq, Repr

/-- `ChkReplica`: replica-major sub-grouping holding an ordered sequence of hosts. -/
structure ChkReplica where
  name : String
  hosts : List Host
deriving DecidableEq, Repr

/-- `ChkClusterLayout`: the shards/replicas lists of a cluster layout. -/
structure ChkClusterLayout where
  shards : List ChkShard
  replicas : List ChkReplica
deriving DecidableEq, Repr

/-- `ChkCluster`: a named cluster with a layout. -/
structure ChkCluster where
  name : String
  layout : ChkClusterLayout
deriving DecidableEq, Repr

/-- The indexed collecting loop shared (verbatim, per element type) by
`WalkShards`, `WalkReplicas` and the inner loops of the by-shard/by-replica
walks: the Go loops append `f(index, element)` to the result slice once per
element, which is this structural recursion. -/
def walkIndexedFrom {α ε : Type} (f : Nat → α → Option ε) : Nat → List α → List (Option ε)
  | _, [] => []
  | i, x :: rest => f i x :: walkIndexedFrom f (i + 1) rest

/-- `ChkCluster.WalkShards`: apply the callback to every shard with its index,
collecting one (possibly nil) error per shard. -/
def ChkCluster.WalkShards {ε : Type} (c : ChkCluster) (f : Nat → ChkShard → Option ε) :
    List (Option ε) :=
  walkIndexedFrom f 0 c.layout.shards

/-- `ChkCluster.WalkReplicas`: apply the callback to every replica with its index. -/
def ChkCluster.WalkReplicas {ε : Type} (c : ChkCluster) (f : Nat → ChkReplica → Option ε) :
    List (Option ε) :=
  walkIndexedFrom f 0 c.layout.replicas

/-- The nested loop of `WalkHosts`: for each shard, for each of its hosts,
append `f(host)` to the result slice. -/
def walkHostsOverShards {ε : Type} (f : Host → Option ε) : List ChkShard → List (Option ε)
  | [] => []
  | s :: rest => s.hosts.map f ++ walkHostsOverShards f rest

/-- `ChkCluster.WalkHosts`: walk all hosts shard by shard. -/
def ChkCluster.WalkHosts {ε : Type} (c : ChkCluster) (f : Host → Option ε) : List (Option ε) :=
  walkHostsOverShards f c.layout.shards

/-- The outer loop of `WalkHostsByShards`: shard index outside, replica index inside. -/
def walkHostsByShardsFrom {ε : Type} (f : Nat → Nat → Host → Option ε) :
    Nat → List ChkShard → List (Option ε)
  | _, [] => []
  | i, s :: rest => walkIndexedFrom (fun j h => f i j h) 0 s.hosts ++ walkHostsByShardsFrom f (i + 1) rest

/-- `ChkCluster.WalkHostsByShards`: callback receives (shard, replica, host). -/
def ChkCluster.WalkHostsByShards {ε : Type} (c : ChkCluster) (f : Nat → Nat → Host → Option ε) :
    List (Option ε) :=
  walkHostsByShardsFrom f 0 c.layout.shards

/-- The outer loop of `WalkHostsByReplicas`: replica index outside, shard index inside. -/
def walkHostsByReplicasFrom {ε : Type} (f : Nat → Nat → Host → Option ε) :
    Nat → List ChkReplica → List (Option ε)
  | _, [] => []
  | j, r :: rest => walkIndexedFrom (fun i h => f i j h) 0 r.hosts ++ walkHostsByReplicasFrom f (j + 1) rest

/-- `ChkCluster.WalkHostsByReplicas`: callback receives (shard, replica, host). -/
def ChkCluster.WalkHostsByReplicas {ε : Type} (c : ChkCluster) (f : Nat → Nat → Host → Option ε) :
    List (Option ε) :=
  walkHostsByReplicasFrom f 0 c.layout.replicas

/-- The leaf hosts of a cluster in shard-then-replica iteration order
(the order `WalkHosts` visits them). -/
def ChkCluster.leafHosts (c : ChkCluster) : List Host :=
  c.layout.shards.flatMap (fun s => s.hosts)

/-- `ChkCluster.HostsCount` counts hosts by walking them: the Go closure
increments a counter once per callback invocation, and the number of
invocations is the length of the collected error slice. -/
def ChkCluster.HostsCount (c : ChkCluster) : Nat :=
  (c.WalkHosts (fun _ => (none : Option Unit))).length

/-- A lookup needle: the source's dynamically-typed `needle interface\x7b\x7d`
carries either a shard/host name (string) or an index (int). -/
inductive Needle where
  | byName (name : String)
  | byIndex (index : Int)
deriving DecidableEq, Repr

/-- Whether a shard at a given iteration index matches the needle. -/
def needleMatchShard (needle : Needle) (index : Nat) (shard : ChkShard) : Bool :=
  match needle with
  | .byName v => shard.name == v
  | .byIndex v => (index : Int) == v

/-- `ChkCluster.FindShard`: the source walks all shards via `WalkShards` with a
closure that assigns `resultShard` on every match and never stops; that closure
over the iteration order is this fold (so a later match overwrites an earlier one). -/
def ChkCluster.FindShard (c : ChkCluster) (needle : Needle) : Option ChkShard :=
  c.layout.shards.enum.foldl
    (fun resultShard p => if needleMatchShard needle p.1 p.2 then some p.2 else resultShard)
    none

/-- Whether a host at a given iteration index matches the needle. -/
def needleMatchHost (needle : Needle) (index : Nat) (host : Host) : Bool :=
  match needle with
  | .byName v => host.name == v
  | .byIndex v => (index : Int) == v

/-- Modelled from the spec: `ChkShard.FindHost` (the host-level half of
`ChkCluster.FindHost`) is not part of the sampled sources. The spec specifies
the lookups as deterministic, returning the first match in iteration order. -/
def ChkShard.FindHost (shard : ChkShard) (needle : Needle) : Option Host :=
  (shard.hosts.enum.find? (fun p => needleMatchHost needle p.1 p.2)).map (fun p => p.2)

/-- `ChkCluster.FindHost` composes `FindShard` with the shard-level host lookup;
a nil shard result yields no host. -/
def ChkCluster.FindHost (c : ChkCluster) (needleShard needleHost : Needle) : Option Host :=
  (c.FindShard needleShard).bind (fun s => s.FindHost needleHost)

/-- `ChkCluster.FirstHost`: walks hosts with a closure that keeps only the
first host seen (`if result == nil`), over the `WalkHosts` iteration order. -/
def ChkCluster.FirstHost (c : ChkCluster) : Option Host :=
  c.leafHosts.foldl (fun result host => if result.isNone then some host else result) none

/-! ### Walk lemmas -/

/-- The indexed collecting loop is the enumerate-then-map of its callback. -/
theorem walkIndexedFrom_eq_enumFrom_map {α ε : Type} (f : Nat → α → Option ε) :
    ∀ (i : Nat) (l : List α),
      walkIndexedFrom f i l = (l.enumFrom i).map (fun p => f p.1 p.2)
  | _, [] => rfl
  | i, x :: rest => by
    simp [walkIndexedFrom, List.enumFrom, walkIndexedFrom_eq_enumFrom_map f (i + 1) rest]

/-- The nested host loop maps the callback over the flattened host list. -/
theorem walkHostsOverShards_eq_map {ε : Type} (f : Host → Option ε) :
    ∀ (shards : List ChkShard),
      walkHostsOverShards f shards = (shards.flatMap (fun s => s.hosts)).map f
  | [] => rfl
  | s :: rest => by
    simp [walkHostsOverShards, List.flatMap, walkHostsOverShards_eq_map f rest]

/-- The by-shards nested loop is the join of per-shard enumerated maps. -/
theorem walkHostsByShardsFrom_eq {ε : Type} (f : Nat → Nat → Host → Option ε) :
    ∀ (i : Nat) (shards : List ChkShard),
      walkHostsByShardsFrom f i shards =
        ((shards.enumFrom i).map (fun p => (p.2.hosts.enum.map (fun q => f p.1 q.1 q.2)))).flatten
  | _, [] => rfl
  | i, s :: rest => by
    simp [walkHostsByShardsFrom, List.enumFrom, List.enum,
      walkHostsByShardsFrom_eq f (i + 1) rest, walkIndexedFrom_eq_enumFrom_map]

/-- The by-replicas nested loop is the join of per-replica enumerated maps. -/
theorem walkHostsByReplicasFrom_eq {ε : Type} (f : Nat → Nat → Host → Option ε) :
    ∀ (j : Nat) (replicas : List ChkReplica),
      walkHostsByReplicasFrom f j replicas =
        ((replicas.enumFrom j).map (fun p => (p.2.hosts.enum.map (fun q => f q.1 p.1 q.2)))).flatten
  | _, [] => rfl
  | j, r :: rest => by
    simp [walkHostsByReplicasFrom, List.enumFrom, List.enum,
      walkHostsByReplicasFrom_eq f (j + 1) rest, walkIndexedFrom_eq_enumFrom_map]

/-- C7: every walk visits each element exactly once in iteration order and
collects exactly one (possibly nil) error per element — the result is the
enumerated map of the callback over the elements, whatever the callback
returns (so a non-nil error never stops the traversal) — and `HostsCount`
equals the number of leaf hosts. -/
theorem c7_walks_collect_one_error_per_element {ε : Type} (c : ChkCluster)
    (fs : Nat → ChkShard → Option ε) (fr : Nat → ChkReplica → Option ε)
    (fh : Host → Option ε) (fbs fbr : Nat → Nat → Host → Option ε) :
    (c.WalkShards fs = c.layout.shards.enum.map (fun p => fs p.1 p.2)
      ∧ (c.WalkShards fs).length = c.layout.shards.length)
  ∧ (c.WalkReplicas fr = c.layout.replicas.enum.map (fun p => fr p.1 p.2)
      ∧ (c.WalkReplicas fr).length = c.layout.replicas.length)
  ∧ (c.WalkHosts fh = c.leafHosts.map fh
      ∧ (c.WalkHosts fh).length = c.leafHosts.length)
  ∧ c.WalkHostsByShards fbs =
      (c.layout.shards.enum.map (fun p => (p.2.hosts.enum.map (fun q => fbs p.1 q.1 q.2)))).flatten
  ∧ c.WalkHostsByReplicas fbr =
      (c.layout.replicas.enum.map (fun p => (p.2.hosts.enum.map (fun q => fbr q.1 p.1 q.2)))).flatten
  ∧ c.HostsCount = c.leafHosts.length := by
  have hs := walkIndexedFrom_eq_enumFrom_map fs 0 c.layout.shards
  have hr := walkIndexedFrom_eq_enumFrom_map fr 0 c.layout.replicas
  have hh := walkHostsOverShards_eq_map fh c.layout.shards
  have hh0 := walkHostsOverShards_eq_map (fun _ => (none : Option Unit)) c.layout.shards
  refine ⟨⟨?_, ?_⟩, ⟨?_, ?_⟩, ⟨?_, ?_⟩, ?_, ?_, ?_⟩
  · simpa [ChkCluster.WalkShards, List.enum] using hs
  · simp [ChkCluster.WalkShards, hs, List.enumFrom_length]
  · simpa [ChkCluster.WalkReplicas, List.enum] using hr
  · simp [ChkCluster.WalkReplicas, hr, List.enumFrom_length]
  · simpa [ChkCluster.WalkHosts, ChkCluster.leafHosts] using hh
  · simp [ChkCluster.WalkHosts, hh, ChkCluster.leafHosts]
  · simpa [ChkCluster.WalkHostsByShards, List.enum] using
      walkHostsByShardsFrom_eq fbs 0 c.layout.shards
  · simpa [ChkCluster.WalkHostsByReplicas, List.enum] using
      walkHostsByReplicasFrom_eq fbr 0 c.layout.replicas
  · simp [ChkCluster.HostsCount, ChkCluster.WalkHosts, hh0, ChkCluster.leafHosts]

/-! ## C8: lookup determinism -/

/-- An overwrite-on-match fold ends at the last match (or the initial
accumulator when there is none). -/
theorem foldl_overwrite_eq_getLast {α β : Type} (P : α → Bool) (g : α → β) :
    ∀ (l : List α) (acc : Option β),
      l.foldl (fun r x => if P x then some (g x) else r) acc =
        (match (l.filter P).getLast? with
          | some y => some (g y)
          | none => acc)
  | [], _ => rfl
  | x :: xs, acc => by
    rw [List.foldl_cons, foldl_overwrite_eq_getLast P g xs]
    by_cases hx : P x
    · simp only [List.filter_cons, hx, if_pos, ite_true]
      rcases hxs : xs.filter P with _ | ⟨z, zs⟩
      · simp [hxs]
      · rw [List.getLast?_cons_cons]
        rcases hgl : (z :: zs).getLast? with _ | y
        · exact absurd hgl (by simp [List.getLast?])
        · rfl
    · simp [List.filter_cons, hx]

/-- A keep-first fold over an empty accumulator ends at the head. -/
theorem foldl_keep_first_eq_head {α : Type} :
    ∀ (l : List α) (acc : Option α),
      l.foldl (fun r x => if r.isNone then some x else r) acc =
        (match acc with
          | some a => some a
          | none => l.head?)
  | [], acc => by cases acc <;> rfl
  | x :: xs, acc => by
    rw [List.foldl_cons, foldl_keep_first_eq_head xs]
    cases acc <;> simp

/-- First shard (pointer id 0) of the C8 counterexample cluster. -/
def shardDup0 : ChkShard := { id := 0, name := "shard-a", hosts := [] }

/-- Second shard (pointer id 1) of the C8 counterexample cluster, with the same name. -/
def shardDup1 : ChkShard :=
  { id := 1, name := "shard-a"
    hosts := [{ id := 10, name := "host-1-0", reconcileAttributes := none }] }

/-- A cluster whose two shards carry the same name. -/
def clusterDupNames : ChkCluster :=
  { name := "c", layout := { shards := [shardDup0, shardDup1], replicas := [] } }

/-- C8 counterexample: with two shards of the same name, `FindShard` by that
name returns the shard with the higher index (the walk's closure overwrites the
result on every match), not the one with the lower index as claimed. -/
theorem c8_findshard_returns_last_counterexample :
    shardDup0.name = shardDup1.name ∧
    clusterDupNames.FindShard (.byName "shard-a") = some shardDup1 ∧
    shardDup1 ≠ shardDup0 := by
  refine ⟨rfl, ?_, by decide⟩
  decide

/-- C8 (amended): the lookups are deterministic; `FindShard` returns the last
matching shard in shard iteration order (so with duplicate names the higher
index wins), `FirstHost` returns the first host in shard-then-replica order,
and `FindHost` looks the host up inside the shard `FindShard` found. -/
theorem c8_lookups_deterministic (c : ChkCluster) (needle needleHost : Needle) :
    c.FindShard needle =
      ((c.layout.shards.enum.filter (fun p => needleMatchShard needle p.1 p.2)).getLast?).map
        (fun p => p.2)
  ∧ c.FirstHost = c.leafHosts.head?
  ∧ c.FindHost needle needleHost = (c.FindShard needle).bind (fun s => s.FindHost needleHost) := by
  refine ⟨?_, ?_, rfl⟩
  · unfold ChkCluster.FindShard
    refine (foldl_overwrite_eq_getLast (fun p : Nat × ChkShard => needleMatchShard needle p.1 p.2)
      (fun p : Nat × ChkShard => p.2) c.layout.shards.enum none).trans ?_
    cases (c.layout.shards.enum.filter
        (fun p : Nat × ChkShard => needleMatchShard needle p.1 p.2)).getLast? <;> simp
  · unfold ChkCluster.FirstHost
    exact foldl_keep_first_eq_head c.leafHosts none

/-- Concrete host used by the C1 counterexample. -/
def hostC1 : Host := { id := 0, name := "host-0-0", reconcileAttributes := none }

/-- C1 counterexample: for a nil options receiver, `Include` returns `false`
while `!Exclude` is `true`, so `Include` is not the negation of `Exclude`
on nil options. -/
theorem c1_nil_options_counterexample :
    ¬ (RemoteServersGeneratorOptions.Include none hostC1 =
       !RemoteServersGeneratorOptions.Exclude none hostC1) := by
  decide

/-- C1 (amended): for every non-nil options value `o` and every host `h`,
`o.Include h = !(o.Exclude h)`; on a nil receiver both `Include` and
`Exclude` return `false`. -/
theorem c1_include_is_negation_of_exclude (o : RemoteServersGeneratorOptions) (h : Host) :
    (RemoteServersGeneratorOptions.Include (some o) h =
      !RemoteServersGeneratorOptions.Exclude (some o) h) ∧
    RemoteServersGeneratorOptions.Include none h = false ∧
    RemoteServersGeneratorOptions.Exclude none h = false := by
  refine ⟨?_, rfl, rfl⟩
  unfold RemoteServersGeneratorOptions.Include RemoteServersGeneratorOptions.Exclude
  by_cases ha : attrsAny o.excludeAttributes h.reconcileAttributes
  · simp [ha]
  · by_cases hl : o.excludeHosts.any (fun val => val.id == h.id) <;> simp [ha, hl]

/-! ## ComparableAttributes (type_attributes.go) -/

/-- A container environment variable (`core.EnvVar`), reduced to the fields
the source reads. -/
structure EnvVar where
  name : String
  value : String
deriving DecidableEq, Repr

/-- A pod volume (`core.Volume`); `sourceId` stands for the opaque volume source. -/
structure Volume where
  name : String
  sourceId : Nat
deriving DecidableEq, Repr

/-- A container volume mount (`core.VolumeMount`), reduced to name and mount path. -/
structure VolumeMount where
  name : String
  mountPath : String
deriving DecidableEq, Repr

/-- `ComparableAttributes`: additional env vars / volumes / volume mounts. -/
structure ComparableAttributes where
  additionalEnvVars : List EnvVar
  additionalVolumes : List Volume
  additionalVolumeMounts : List VolumeMount
  skipOwnerRef : Bool
deriving DecidableEq, Repr

/-- `GetAdditionalEnvVars` — nil receiver yields the empty collection. -/
def ComparableAttributes.GetAdditionalEnvVars : Option ComparableAttributes → List EnvVar
  | none => []
  | some a => a.additionalEnvVars

/-- `AppendAdditionalEnvVar` — unconditional append; no-op on nil receiver. -/
def ComparableAttributes.AppendAdditionalEnvVar :
    Option ComparableAttributes → EnvVar → Option ComparableAttributes
  | none, _ => none
  | some a, envVar => some { a with additionalEnvVars := a.additionalEnvVars ++ [envVar] }

/-- `AppendAdditionalEnvVarIfNotExists`: skip on nil receiver, empty name, or
an existing entry of the same name; otherwise append. -/
def ComparableAttributes.AppendAdditionalEnvVarIfNotExists
    (a : Option ComparableAttributes) (envVar : EnvVar) : Option ComparableAttributes :=
  match a with
  | none => none
  | some attrs =>
    if envVar.name == "" then some attrs
    else if (ComparableAttributes.GetAdditionalEnvVars (some attrs)).any
        (fun existing => existing.name == envVar.name) then some attrs
    else ComparableAttributes.AppendAdditionalEnvVar (some attrs) envVar

/-- `GetAdditionalVolumes` — nil receiver yields the empty collection. -/
def ComparableAttributes.GetAdditionalVolumes : Option ComparableAttributes → List Volume
  | none => []
  | some a => a.additionalVolumes

/-- `AppendAdditionalVolume` — unconditional append; no-op on nil receiver. -/
def ComparableAttributes.AppendAdditionalVolume :
    Option ComparableAttributes → Volume → Option ComparableAttributes
  | none, _ => none
  | some a, volume => some { a with additionalVolumes := a.additionalVolumes ++ [volume] }

/-- `AppendAdditionalVolumeIfNotExists`: skip on nil receiver, empty name, or
an existing entry of the same name; otherwise append. -/
def ComparableAttributes.AppendAdditionalVolumeIfNotExists
    (a : Option ComparableAttributes) (volume : Volume) : Option ComparableAttributes :=
  match a with
  | none => none
  | some attrs =>
    if volume.name == "" then some attrs
    else if (ComparableAttributes.GetAdditionalVolumes (some attrs)).any
        (fun existing => existing.name == volume.name) then some attrs
    else ComparableAttributes.AppendAdditionalVolume (some attrs) volume

/-- `GetAdditionalVolumeMounts` — nil receiver yields the empty collection. -/
def ComparableAttributes.GetAdditionalVolumeMounts : Option ComparableAttributes → List VolumeMount
  | none => []
  | some a => a.additionalVolumeMounts

/-- `AppendAdditionalVolumeMount` — unconditional append; no-op on nil receiver. -/
def ComparableAttributes.AppendAdditionalVolumeMount :
    Option ComparableAttributes → VolumeMount → Option ComparableAttributes
  | none, _ => none
  | some a, volumeMount =>
    some { a with additionalVolumeMounts := a.additionalVolumeMounts ++ [volumeMount] }

/-- `AppendAdditionalVolumeMountIfNotExists`: skip on nil receiver, empty name,
or an existing entry of the same name; otherwise append. -/
def ComparableAttributes.AppendAdditionalVolumeMountIfNotExists
    (a : Option ComparableAttributes) (volumeMount : VolumeMount) : Option ComparableAttributes :=
  match a with
  | none => none
  | some attrs =>
    if volumeMount.name == "" then some attrs
    else if (ComparableAttributes.GetAdditionalVolumeMounts (some attrs)).any
        (fun existing => existing.name == volumeMount.name) then some attrs
    else ComparableAttributes.AppendAdditionalVolumeMount (some attrs) volumeMount


/-- The list-level effect shared by the three append-if-not-exists operations:
skip on empty name, skip on an existing equal name, otherwise append. -/
def appendIfNotExistsList {α : Type} (getName : α → String) (l : List α) (v : α) : List α :=
  if getName v == "" then l
  else if l.any (fun e => getName e == getName v) then l
  else l ++ [v]

/-- Skip cases of the shared list-level effect. -/
theorem appendIfNotExistsList_skip {α : Type} (getName : α → String) (l : List α) (v : α)
    (h : getName v = "" ∨ getName v ∈ l.map getName) :
    appendIfNotExistsList getName l v = l := by
  unfold appendIfNotExistsList
  by_cases h0 : getName v = ""
  · simp [h0]
  · have hmem : getName v ∈ l.map getName := h.resolve_left h0
    rcases List.mem_map.mp hmem with ⟨e, he, hee⟩
    have hany : l.any (fun e => getName e == getName v) = true :=
      List.any_eq_true.mpr ⟨e, he, by simp [hee]⟩
    simp [h0, hany]

/-- The shared list-level effect appends the given entry or nothing. -/
theorem appendIfNotExistsList_cases {α : Type} (getName : α → String) (l : List α) (v : α) :
    appendIfNotExistsList getName l v = l ∨ appendIfNotExistsList getName l v = l ++ [v] := by
  unfold appendIfNotExistsList
  by_cases h0 : getName v == ""
  · exact Or.inl (by simp [h0])
  · by_cases h1 : l.any (fun e => getName e == getName v)
    · exact Or.inl (by simp [h0, h1])
    · exact Or.inr (by simp [h0, h1])

/-- The shared list-level effect never introduces an empty-named entry. -/
theorem appendIfNotExistsList_no_empty_name {α : Type} (getName : α → String) (l : List α) (v : α)
    (h : ∀ e ∈ l, getName e ≠ "") :
    ∀ e ∈ appendIfNotExistsList getName l v, getName e ≠ "" := by
  intro e he
  by_cases h0 : getName v = ""
  · exact h e (by simpa [appendIfNotExistsList, h0] using he)
  · by_cases h1 : ∃ x ∈ l, getName x = getName v
    · exact h e (by simpa [appendIfNotExistsList, h0, h1] using he)
    · rcases (by simpa [appendIfNotExistsList, h0, h1] using he : e ∈ l ∨ e = v) with hl | rfl
      · exact h e hl
      · exact h0

/-- The shared list-level effect never introduces a duplicate name. -/
theorem appendIfNotExistsList_nodup {α : Type} (getName : α → String) (l : List α) (v : α)
    (h : (l.map getName).Nodup) :
    ((appendIfNotExistsList getName l v).map getName).Nodup := by
  by_cases h0 : getName v = ""
  · simpa [appendIfNotExistsList, h0] using h
  · by_cases h1 : ∃ x ∈ l, getName x = getName v
    · simpa [appendIfNotExistsList, h0, h1] using h
    · have hnot : getName v ∉ l.map getName := by
        intro hmem
        rcases List.mem_map.mp hmem with ⟨e, he, hee⟩
        exact h1 ⟨e, he, hee⟩
      have happ : appendIfNotExistsList getName l v = l ++ [v] := by
        simp [appendIfNotExistsList, h0, h1]
      rw [happ, List.map_append]
      exact List.Nodup.append h (List.nodup_singleton _)
        (by simpa [List.disjoint_singleton] using hnot)

/-- The env-var operation is the shared list-level effect on `additionalEnvVars`. -/
theorem appendAdditionalEnvVarIfNotExists_eq (a : ComparableAttributes) (v : EnvVar) :
    ComparableAttributes.AppendAdditionalEnvVarIfNotExists (some a) v =
      some { a with additionalEnvVars := appendIfNotExistsList EnvVar.name a.additionalEnvVars v } := by
  unfold ComparableAttributes.AppendAdditionalEnvVarIfNotExists appendIfNotExistsList
  by_cases h0 : v.name = ""
  · simp [h0]
  · by_cases h1 : ∃ x ∈ a.additionalEnvVars, x.name = v.name
    · simp [h0, ComparableAttributes.GetAdditionalEnvVars, h1]
    · simp [h0, ComparableAttributes.GetAdditionalEnvVars, h1,
        ComparableAttributes.AppendAdditionalEnvVar]

/-- The volume operation is the shared list-level effect on `additionalVolumes`. -/
theorem appendAdditionalVolumeIfNotExists_eq (a : ComparableAttributes) (v : Volume) :
    ComparableAttributes.AppendAdditionalVolumeIfNotExists (some a) v =
      some { a with additionalVolumes := appendIfNotExistsList Volume.name a.additionalVolumes v } := by
  unfold ComparableAttributes.AppendAdditionalVolumeIfNotExists appendIfNotExistsList
  by_cases h0 : v.name = ""
  · simp [h0]
  · by_cases h1 : ∃ x ∈ a.additionalVolumes, x.name = v.name
    · simp [h0, ComparableAttributes.GetAdditionalVolumes, h1]
    · simp [h0, ComparableAttributes.GetAdditionalVolumes, h1,
        ComparableAttributes.AppendAdditionalVolume]

/-- The volume-mount operation is the shared list-level effect on `additionalVolumeMounts`. -/
theorem appendAdditionalVolumeMountIfNotExists_eq (a : ComparableAttributes) (v : VolumeMount) :
    ComparableAttributes.AppendAdditionalVolumeMountIfNotExists (some a) v =
      some { a with additionalVolumeMounts :=
        appendIfNotExistsList VolumeMount.name a.additionalVolumeMounts v } := by
  unfold ComparableAttributes.AppendAdditionalVolumeMountIfNotExists appendIfNotExistsList
  by_cases h0 : v.name = ""
  · simp [h0]
  · by_cases h1 : ∃ x ∈ a.additionalVolumeMounts, x.name = v.name
    · simp [h0, ComparableAttributes.GetAdditionalVolumeMounts, h1]
    · simp [h0, ComparableAttributes.GetAdditionalVolumeMounts, h1,
        ComparableAttributes.AppendAdditionalVolumeMount]

/-- C10: each append-if-not-exists operation is a total no-op on a nil
receiver; it adds nothing when the argument's name is empty or already
present; otherwise it appends exactly the one given entry; consequently the
collections never gain an empty-named entry and never gain a duplicate name
through these operations. Stated for all three collections. -/
theorem c10_append_if_not_exists_invariants
    (a : ComparableAttributes) (v : EnvVar) (vol : Volume) (vm : VolumeMount) :
    (ComparableAttributes.AppendAdditionalEnvVarIfNotExists none v = none
      ∧ ComparableAttributes.AppendAdditionalVolumeIfNotExists none vol = none
      ∧ ComparableAttributes.AppendAdditionalVolumeMountIfNotExists none vm = none)
  ∧ ((v.name = "" ∨ v.name ∈ a.additionalEnvVars.map EnvVar.name →
        ComparableAttributes.AppendAdditionalEnvVarIfNotExists (some a) v = some a)
      ∧ (ComparableAttributes.AppendAdditionalEnvVarIfNotExists (some a) v = some a
          ∨ ComparableAttributes.AppendAdditionalEnvVarIfNotExists (some a) v =
              some { a with additionalEnvVars := a.additionalEnvVars ++ [v] })
      ∧ ((∀ e ∈ a.additionalEnvVars, e.name ≠ "") →
          ∀ e ∈ ComparableAttributes.GetAdditionalEnvVars
              (ComparableAttributes.AppendAdditionalEnvVarIfNotExists (some a) v), e.name ≠ "")
      ∧ ((a.additionalEnvVars.map EnvVar.name).Nodup →
          ((ComparableAttributes.GetAdditionalEnvVars
              (ComparableAttributes.AppendAdditionalEnvVarIfNotExists (some a) v)).map
                EnvVar.name).Nodup))
  ∧ ((vol.name = "" ∨ vol.name ∈ a.additionalVolumes.map Volume.name →
        ComparableAttributes.AppendAdditionalVolumeIfNotExists (some a) vol = some a)
      ∧ (ComparableAttributes.AppendAdditionalVolumeIfNotExists (some a) vol = some a
          ∨ ComparableAttributes.AppendAdditionalVolumeIfNotExists (some a) vol =
              some { a with additionalVolumes := a.additionalVolumes ++ [vol] })
      ∧ ((∀ e ∈ a.additionalVolumes, e.name ≠ "") →
          ∀ e ∈ ComparableAttributes.GetAdditionalVolumes
              (ComparableAttributes.AppendAdditionalVolumeIfNotExists (some a) vol), e.name ≠ "")
      ∧ ((a.additionalVolumes.map Volume.name).Nodup →
          ((ComparableAttributes.GetAdditionalVolumes
              (ComparableAttributes.AppendAdditionalVolumeIfNotExists (some a) vol)).map
                Volume.name).Nodup))
  ∧ ((vm.name = "" ∨ vm.name ∈ a.additionalVolumeMounts.map VolumeMount.name →
        ComparableAttributes.AppendAdditionalVolumeMountIfNotExists (some a) vm = some a)
      ∧ (ComparableAttributes.AppendAdditionalVolumeMountIfNotExists (some a) vm = some a
          ∨ ComparableAttributes.AppendAdditionalVolumeMountIfNotExists (some a) vm =
              some { a with additionalVolumeMounts := a.additionalVolumeMounts ++ [vm] })
      ∧ ((∀ e ∈ a.additionalVolumeMounts, e.name ≠ "") →
          ∀ e ∈ ComparableAttributes.GetAdditionalVolumeMounts
              (ComparableAttributes.AppendAdditionalVolumeMountIfNotExists (some a) vm), e.name ≠ "")
      ∧ ((a.additionalVolumeMounts.map VolumeMount.name).Nodup →
          ((ComparableAttributes.GetAdditionalVolumeMounts
              (ComparableAttributes.AppendAdditionalVolumeMountIfNotExists (some a) vm)).map
                VolumeMount.name).Nodup)) := by
  refine ⟨⟨rfl, rfl, rfl⟩, ⟨?_, ?_, ?_, ?_⟩, ⟨?_, ?_, ?_, ?_⟩, ⟨?_, ?_, ?_, ?_⟩⟩
  · intro h
    rw [appendAdditionalEnvVarIfNotExists_eq, appendIfNotExistsList_skip EnvVar.name _ _ h]
  · rcases appendIfNotExistsList_cases EnvVar.name a.additionalEnvVars v with h | h
    · exact Or.inl (by rw [appendAdditionalEnvVarIfNotExists_eq, h])
    · exact Or.inr (by rw [appendAdditionalEnvVarIfNotExists_eq, h])
  · intro h
    rw [appendAdditionalEnvVarIfNotExists_eq]
    exact appendIfNotExistsList_no_empty_name EnvVar.name _ _ h
  · intro h
    rw [appendAdditionalEnvVarIfNotExists_eq]
    exact appendIfNotExistsList_nodup EnvVar.name _ _ h
  · intro h
    rw [appendAdditionalVolumeIfNotExists_eq, appendIfNotExistsList_skip Volume.name _ _ h]
  · rcases appendIfNotExistsList_cases Volume.name a.additionalVolumes vol with h | h
    · exact Or.inl (by rw [appendAdditionalVolumeIfNotExists_eq, h])
    · exact Or.inr (by rw [appendAdditionalVolumeIfNotExists_eq, h])
  · intro h
    rw [appendAdditionalVolumeIfNotExists_eq]
    exact appendIfNotExistsList_no_empty_name Volume.name _ _ h
  · intro h
    rw [appendAdditionalVolumeIfNotExists_eq]
    exact appendIfNotExistsList_nodup Volume.name _ _ h
  · intro h
    rw [appendAdditionalVolumeMountIfNotExists_eq, appendIfNotExistsList_skip VolumeMount.name _ _ h]
  · rcases appendIfNotExistsList_cases VolumeMount.name a.additionalVolumeMounts vm with h | h
    · exact Or.inl (by rw [appendAdditionalVolumeMountIfNotExists_eq, h])
    · exact Or.inr (by rw [appendAdditionalVolumeMountIfNotExists_eq, h])
  · intro h
    rw [appendAdditionalVolumeMountIfNotExists_eq]
    exact appendIfNotExistsList_no_empty_name VolumeMount.name _ _ h
  · intro h
    rw [appendAdditionalVolumeMountIfNotExists_eq]
    exact appendIfNotExistsList_nodup VolumeMount.name _ _ h

/-- Concrete attributes used by the C10 witness. -/
def attrsC10 : ComparableAttributes :=
  { additionalEnvVars := [{ name := "CLICKHOUSE_USER", value := "default" }]
    additionalVolumes := []
    additionalVolumeMounts := [{ name := "data", mountPath := "/var/lib/clickhouse" }]
    skipOwnerRef := false }

/-- C10 witness: the claim theorem applied at concrete inputs, discharging its
hypotheses there. -/
theorem c10_append_if_not_exists_invariants_witness :
    ComparableAttributes.AppendAdditionalEnvVarIfNotExists none { name := "X", value := "1" } = none
  ∧ ComparableAttributes.AppendAdditionalEnvVarIfNotExists (some attrsC10)
      { name := "CLICKHOUSE_USER", value := "other" } = some attrsC10
  ∧ ComparableAttributes.AppendAdditionalVolumeIfNotExists (some attrsC10)
      { name := "", sourceId := 3 } = some attrsC10
  ∧ (∀ e ∈ ComparableAttributes.GetAdditionalVolumeMounts
        (ComparableAttributes.AppendAdditionalVolumeMountIfNotExists (some attrsC10)
          { name := "data", mountPath := "/elsewhere" }), e.name ≠ "")
  ∧ ((ComparableAttributes.GetAdditionalVolumeMounts
        (ComparableAttributes.AppendAdditionalVolumeMountIfNotExists (some attrsC10)
          { name := "log", mountPath := "/var/log/clickhouse-server" })).map
            VolumeMount.name).Nodup := by
  refine ⟨?_, ?_, ?_, ?_, ?_⟩
  · exact (c10_append_if_not_exists_invariants attrsC10 { name := "X", value := "1" }
      { name := "", sourceId := 3 } { name := "data", mountPath := "/elsewhere" }).1.1
  · exact (c10_append_if_not_exists_invariants attrsC10 { name := "CLICKHOUSE_USER", value := "other" }
      { name := "", sourceId := 3 } { name := "data", mountPath := "/elsewhere" }).2.1.1 (by decide)
  · exact (c10_append_if_not_exists_invariants attrsC10 { name := "X", value := "1" }
      { name := "", sourceId := 3 } { name := "data", mountPath := "/elsewhere" }).2.2.1.1 (by decide)
  · exact (c10_append_if_not_exists_invariants attrsC10 { name := "X", value := "1" }
      { name := "", sourceId := 3 } { name := "data", mountPath := "/elsewhere" }).2.2.2.2.2.1 (by decide)
  · exact (c10_append_if_not_exists_invariants attrsC10 { name := "X", value := "1" }
      { name := "", sourceId := 3 } { name := "log", mountPath := "/var/log/clickhouse-server" }).2.2.2.2.2.2 (by decide)

/-! ## Services and the object creator (model/creator.go) -/

/-- The `intstr.IntOrString` target-port value. -/
inductive IntOrString where
  | ofInt (i : Int)
  | ofString (s : String)
deriving DecidableEq, Repr

/-- A service port (`corev1.ServicePort`), with the fields the source touches. -/
structure ServicePort where
  name : String
  protocol : String
  port : Int
  nodePort : Int
  targetPort : IntOrString
deriving DecidableEq, Repr

/-- A service spec (`corev1.ServiceSpec`), with the fields the source touches. -/
structure ServiceSpec where
  ports : List ServicePort
  selector : List (String × String)
  clusterIP : String
  type : String
  externalTrafficPolicy : String
  healthCheckNodePort : Int
  loadBalancerClass : Option String
  publishNotReadyAddresses : Bool
deriving DecidableEq, Repr

/-- Object metadata (`metav1.ObjectMeta`), with the fields the source touches.
`nspace` is the Go `Namespace` field (renamed: `namespace` is a Lean keyword). -/
structure ObjectMeta where
  name : String
  nspace : String
  labels : List (String × String)
  annotations : List (String × String)
  finalizers : List String
  resourceVersion : String
deriving DecidableEq, Repr

/-- A `corev1.Service`. -/
structure Service where
  meta : ObjectMeta
  spec : ServiceSpec
deriving DecidableEq, Repr

/-- A `chiv1.ChiServiceTemplate`: a named template carrying metadata and a service spec. -/
structure ChiServiceTemplate where
  name : String
  objectMeta : ObjectMeta
  spec : ServiceSpec
deriving DecidableEq, Repr

/-- Modelled from the spec: the well-known HTTP port name constant (`chDefaultHttpPortName`),
fixed by §6 of the spec as `http`. -/
def chDefaultHttpPortName : String := "http"

/-- Modelled from the spec: the well-known native-protocol port name constant
(`chDefaultTcpPortName`), fixed by §6 of the spec as `tcp`. -/
def chDefaultTcpPortName : String := "tcp"

/-- Modelled from the spec: the well-known interserver port name constant
(`chDefaultInterserverHttpPortName`), fixed by §6 of the spec as `interserver-http`. -/
def chDefaultInterserverHttpPortName : String := "interserver-http"

/-- Modelled from the spec: the implementation-chosen but stable default HTTP port number. -/
def chDefaultHttpPortNumber : Int := 8123

/-- Modelled from the spec: the implementation-chosen but stable default native port number. -/
def chDefaultTcpPortNumber : Int := 9000

/-- Modelled from the spec: the implementation-chosen but stable default interserver port number. -/
def chDefaultInterserverHttpPortNumber : Int := 9009

/-- Modelled from the spec: the default ClusterIP put on the synthesized
per-host endpoint (a stable constant outside the sampled sources). -/
def templateDefaultsServiceClusterIP : String := "None"

/-- Modelled from the spec: `util.MergeStringMaps` is outside the sampled
sources. Per §4.4 of the spec, on key collision the template's own
labels/selectors (`dst`) win while the generator's provided scoping labels
(`src`) are additively present. -/
def mergeStringMaps (dst src : List (String × String)) : List (String × String) :=
  dst ++ src.filter (fun kv => !(dst.any (fun d => d.1 == kv.1)))

/-- A `chiv1.ChiVolumeClaimTemplate`: a named volume-claim template;
`specId` stands for the opaque `PersistentVolumeClaimSpec` payload. -/
structure ChiVolumeClaimTemplate where
  name : String
  specId : Nat
deriving DecidableEq, Repr

/-- The `ClickHouseInstallation` fields the creator reads. -/
structure ClickHouseInstallation where
  nspace : String
  chiServiceTemplate : Option ChiServiceTemplate
  volumeClaimTemplates : List ChiVolumeClaimTemplate
deriving DecidableEq, Repr

/-- Modelled from the spec: `GetVolumeClaimTemplate` (outside the sampled
sources) resolves a volume-claim template referenced by name among the
installation's declared templates. -/
def ClickHouseInstallation.GetVolumeClaimTemplate (chi : ClickHouseInstallation)
    (name : String) : Option ChiVolumeClaimTemplate :=
  chi.volumeClaimTemplates.find? (fun t => t.name == name)

/-- The host template references the creator reads (data/log volume-claim
template names; empty string means unset). -/
structure HostTemplates where
  dataVolumeClaimTemplate : String
  logVolumeClaimTemplate : String
deriving DecidableEq, Repr

/-- The `chiv1.ChiHost` fields the creator reads. -/
structure ChiHost where
  nspace : String
  serviceTemplate : Option ChiServiceTemplate
  httpPort : Int
  tcpPort : Int
  interserverHttpPort : Int
  templates : HostTemplates
deriving DecidableEq, Repr

/-- The `Creator` context. The labeler and the name-derivation helpers
(`CreateChiServiceName`, `CreateStatefulSetServiceName`, `getLabelsService*`,
`getSelector*`) live outside the sampled sources; they are carried here as
opaque precomputed inputs of the creator. -/
structure Creator where
  chi : ClickHouseInstallation
  chiServiceName : String
  labelsServiceChi : List (String × String)
  selectorChiScope : List (String × String)
  statefulSetServiceNameOf : ChiHost → String
  labelsServiceHostOf : ChiHost → List (String × String)
  selectorHostScopeOf : ChiHost → List (String × String)

/-- `verifyServiceTemplatePorts`: error on the first declared port outside
1..65535 (the Go receiver is used only for logging and is dropped here). -/
def Creator.verifyServiceTemplatePorts (template : ChiServiceTemplate) : Option String :=
  match template.spec.ports.find?
      (fun servicePort => decide (servicePort.port < 1) || decide (servicePort.port > 65535)) with
  | some servicePort =>
    some ("verifyServiceTemplatePorts(" ++ template.name ++ ") INCORRECT PORT: " ++
      toString servicePort.port)
  | none => none

/-- `createServiceFromTemplate`: verify ports (returning no object on
violation), deep-copy template metadata/spec, overwrite name/namespace, and
merge the provided labels/selector into the template's. -/
def Creator.createServiceFromTemplate (template : ChiServiceTemplate)
    (nspace name : String) (labels selector : List (String × String)) : Option Service :=
  match Creator.verifyServiceTemplatePorts template with
  | some _ => none
  | none =>
    some
      { meta :=
          { template.objectMeta with
              name := name
              nspace := nspace
              labels := mergeStringMaps template.objectMeta.labels labels }
        spec :=
          { template.spec with
              selector := mergeStringMaps template.spec.selector selector } }

/-- `CreateServiceChi`: instantiate the installation-scope template when
present, else synthesize the default installation service (ports `http` and
`tcp`, type LoadBalancer). -/
def Creator.CreateServiceChi (c : Creator) : Option Service :=
  match c.chi.chiServiceTemplate with
  | some template =>
    Creator.createServiceFromTemplate template c.chi.nspace c.chiServiceName
      c.labelsServiceChi c.selectorChiScope
  | none =>
    some
      { meta :=
          { name := c.chiServiceName
            nspace := c.chi.nspace
            labels := c.labelsServiceChi
            annotations := []
            finalizers := []
            resourceVersion := "" }
        spec :=
          { ports :=
              [ { name := chDefaultHttpPortName
                  protocol := "TCP"
                  port := chDefaultHttpPortNumber
                  nodePort := 0
                  targetPort := .ofString chDefaultHttpPortName }
              , { name := chDefaultTcpPortName
                  protocol := "TCP"
                  port := chDefaultTcpPortNumber
                  nodePort := 0
                  targetPort := .ofString chDefaultTcpPortName } ]
            selector := c.selectorChiScope
            clusterIP := ""
            type := "LoadBalancer"
            externalTrafficPolicy := ""
            healthCheckNodePort := 0
            loadBalancerClass := none
            publishNotReadyAddresses := false } }

/-- `CreateServiceHost`: instantiate the host-scope template when present,
else synthesize the default per-host service (ports `http`, `tcp`,
`interserver-http` at the host's assigned numbers, type ClusterIP). -/
def Creator.CreateServiceHost (c : Creator) (host : ChiHost) : Option Service :=
  match host.serviceTemplate with
  | some template =>
    Creator.createServiceFromTemplate template host.nspace (c.statefulSetServiceNameOf host)
      (c.labelsServiceHostOf host) (c.selectorHostScopeOf host)
  | none =>
    some
      { meta :=
          { name := c.statefulSetServiceNameOf host
            nspace := host.nspace
            labels := c.labelsServiceHostOf host
            annotations := []
            finalizers := []
            resourceVersion := "" }
        spec :=
          { ports :=
              [ { name := chDefaultHttpPortName
                  protocol := "TCP"
                  port := host.httpPort
                  nodePort := 0
                  targetPort := .ofInt host.httpPort }
              , { name := chDefaultTcpPortName
                  protocol := "TCP"
                  port := host.tcpPort
                  nodePort := 0
                  targetPort := .ofInt host.tcpPort }
              , { name := chDefaultInterserverHttpPortName
                  protocol := "TCP"
                  port := host.interserverHttpPort
                  nodePort := 0
                  targetPort := .ofInt host.interserverHttpPort } ]
            selector := c.selectorHostScopeOf host
            clusterIP := templateDefaultsServiceClusterIP
            type := "ClusterIP"
            externalTrafficPolicy := ""
            healthCheckNodePort := 0
            loadBalancerClass := none
            publishNotReadyAddresses := true } }

/-! ## C2: port-range validation -/

/-- C2: if any declared port is below 1 or above 65535, verification surfaces
an error and template instantiation returns no service object; if every
declared port is within 1..65535, a service object is produced. -/
theorem c2_service_template_port_validation (template : ChiServiceTemplate)
    (nspace name : String) (labels selector : List (String × String)) :
    ((∃ p ∈ template.spec.ports, p.port < 1 ∨ p.port > 65535) →
      (∃ msg, Creator.verifyServiceTemplatePorts template = some msg)
        ∧ Creator.createServiceFromTemplate template nspace name labels selector = none)
  ∧ ((∀ p ∈ template.spec.ports, 1 ≤ p.port ∧ p.port ≤ 65535) →
      ∃ service,
        Creator.createServiceFromTemplate template nspace name labels selector = some service) := by
  constructor
  · intro h
    obtain ⟨p, hp, hrange⟩ := h
    have hsome : (template.spec.ports.find?
        (fun servicePort => decide (servicePort.port < 1) || decide (servicePort.port > 65535))).isSome := by
      rw [List.find?_isSome]
      exact ⟨p, hp, by simpa using hrange⟩
    obtain ⟨q, hq⟩ := Option.isSome_iff_exists.mp hsome
    constructor
    · unfold Creator.verifyServiceTemplatePorts
      rw [hq]
      exact ⟨_, rfl⟩
    · unfold Creator.createServiceFromTemplate Creator.verifyServiceTemplatePorts
      rw [hq]
  · intro h
    have hnone : template.spec.ports.find?
        (fun servicePort => decide (servicePort.port < 1) || decide (servicePort.port > 65535)) = none := by
      rw [List.find?_eq_none]
      intro p hp
      have := h p hp
      simp only [Bool.or_eq_true, decide_eq_true_eq, not_or]
      omega
    unfold Creator.createServiceFromTemplate Creator.verifyServiceTemplatePorts
    rw [hnone]
    exact ⟨_, rfl⟩

/-- A template declaring port 0 (out of range below). -/
def templatePortZero : ChiServiceTemplate :=
  { name := "tmpl-zero"
    objectMeta :=
      { name := "", nspace := "", labels := [], annotations := [], finalizers := []
        resourceVersion := "" }
    spec :=
      { ports := [{ name := "p", protocol := "TCP", port := 0, nodePort := 0, targetPort := .ofInt 0 }]
        selector := [], clusterIP := "", type := "", externalTrafficPolicy := ""
        healthCheckNodePort := 0, loadBalancerClass := none, publishNotReadyAddresses := false } }

/-- A template declaring port 65536 (out of range above). -/
def templatePort65536 : ChiServiceTemplate :=
  { templatePortZero with
      name := "tmpl-65536"
      spec :=
        { templatePortZero.spec with
            ports := [{ name := "p", protocol := "TCP", port := 65536, nodePort := 0
                        targetPort := .ofInt 65536 }] } }

/-- A template declaring the boundary ports 1 and 65535 (both accepted). -/
def templateBoundaryPorts : ChiServiceTemplate :=
  { templatePortZero with
      name := "tmpl-boundary"
      spec :=
        { templatePortZero.spec with
            ports :=
              [ { name := "lo", protocol := "TCP", port := 1, nodePort := 0, targetPort := .ofInt 1 }
              , { name := "hi", protocol := "TCP", port := 65535, nodePort := 0
                  targetPort := .ofInt 65535 } ] } }

/-- C2 witness: the claim theorem applied at ports 0, 65536, and the accepted
boundary ports 1 and 65535. -/
theorem c2_service_template_port_validation_witness :
    Creator.createServiceFromTemplate templatePortZero "ns" "svc" [] [] = none
  ∧ Creator.createServiceFromTemplate templatePort65536 "ns" "svc" [] [] = none
  ∧ (∃ service,
      Creator.createServiceFromTemplate templateBoundaryPorts "ns" "svc" [] [] = some service) := by
  refine ⟨?_, ?_, ?_⟩
  · exact ((c2_service_template_port_validation templatePortZero "ns" "svc" [] []).1 (by decide)).2
  · exact ((c2_service_template_port_validation templatePort65536 "ns" "svc" [] []).1 (by decide)).2
  · exact (c2_service_template_port_validation templateBoundaryPorts "ns" "svc" [] []).2 (by decide)

/-! ## C9: default services per scope -/

/-- A creator with no installation-scope service template. -/
def creatorNoTemplate : Creator :=
  { chi := { nspace := "test", chiServiceTemplate := none, volumeClaimTemplates := [] }
    chiServiceName := "clickhouse-test"
    labelsServiceChi := []
    selectorChiScope := []
    statefulSetServiceNameOf := fun _ => "chi-test-0-0"
    labelsServiceHostOf := fun _ => []
    selectorHostScopeOf := fun _ => [] }

/-- C9 counterexample: the default installation-scope service synthesized by
`CreateServiceChi` carries only the `http` and `tcp` port names — it has no
`interserver-http` port, contrary to the claim that all three well-known names
are present at both scopes. -/
theorem c9_chi_default_ports_counterexample :
    ∃ s, creatorNoTemplate.CreateServiceChi = some s
      ∧ s.spec.ports.map ServicePort.name = [chDefaultHttpPortName, chDefaultTcpPortName]
      ∧ chDefaultInterserverHttpPortName ∉ s.spec.ports.map ServicePort.name := by
  refine ⟨_, rfl, rfl, ?_⟩
  decide

/-- C9 (amended): with no service template, `CreateServiceHost` synthesizes a
default service whose ports carry the three well-known names with TCP
protocol at the host's assigned numbers; `CreateServiceChi` synthesizes a
default service carrying only `http` and `tcp` (with TCP protocol), without
the `interserver-http` port. -/
theorem c9_default_services (c : Creator) (host : ChiHost)
    (hchi : c.chi.chiServiceTemplate = none) (hhost : host.serviceTemplate = none) :
    (∃ s, c.CreateServiceChi = some s
      ∧ s.spec.ports.map (fun p => (p.name, p.protocol)) =
          [(chDefaultHttpPortName, "TCP"), (chDefaultTcpPortName, "TCP")]
      ∧ s.spec.type = "LoadBalancer")
  ∧ (∃ s, c.CreateServiceHost host = some s
      ∧ s.spec.ports.map (fun p => (p.name, p.protocol, p.port)) =
          [ (chDefaultHttpPortName, "TCP", host.httpPort)
          , (chDefaultTcpPortName, "TCP", host.tcpPort)
          , (chDefaultInterserverHttpPortName, "TCP", host.interserverHttpPort) ]
      ∧ s.spec.type = "ClusterIP") := by
  constructor
  · unfold Creator.CreateServiceChi
    rw [hchi]
    exact ⟨_, rfl, rfl, rfl⟩
  · unfold Creator.CreateServiceHost
    rw [hhost]
    exact ⟨_, rfl, rfl, rfl⟩

/-- A host with no service template and assigned port numbers. -/
def hostNoTemplate : ChiHost :=
  { nspace := "test"
    serviceTemplate := none
    httpPort := 8123
    tcpPort := 9001
    interserverHttpPort := 9009
    templates := { dataVolumeClaimTemplate := "", logVolumeClaimTemplate := "" } }

/-- C9 witness: the amended theorem applied to a concrete creator and host
with no templates. -/
theorem c9_default_services_witness :
    (∃ s, creatorNoTemplate.CreateServiceChi = some s
      ∧ s.spec.ports.map (fun p => (p.name, p.protocol)) =
          [(chDefaultHttpPortName, "TCP"), (chDefaultTcpPortName, "TCP")]
      ∧ s.spec.type = "LoadBalancer")
  ∧ (∃ s, creatorNoTemplate.CreateServiceHost hostNoTemplate = some s
      ∧ s.spec.ports.map (fun p => (p.name, p.protocol, p.port)) =
          [ (chDefaultHttpPortName, "TCP", hostNoTemplate.httpPort)
          , (chDefaultTcpPortName, "TCP", hostNoTemplate.tcpPort)
          , (chDefaultInterserverHttpPortName, "TCP", hostNoTemplate.interserverHttpPort) ]
      ∧ s.spec.type = "ClusterIP") :=
  c9_default_services creatorNoTemplate hostNoTemplate rfl rfl

/-! ## StatefulSet workload assembly (model/creator.go) -/

/-- A container port (`corev1.ContainerPort`), with the fields the source touches. -/
structure ContainerPort where
  name : String
  hostPort : Int
  containerPort : Int
deriving DecidableEq, Repr

/-- A container (`corev1.Container`), with the fields the source touches. -/
structure Container where
  name : String
  ports : List ContainerPort
  volumeMounts : List VolumeMount
deriving DecidableEq, Repr

/-- A `corev1.PersistentVolumeClaim` entry of a StatefulSet's claim list;
`specId` stands for the deep-copied opaque claim spec. -/
structure PersistentVolumeClaim where
  name : String
  specId : Nat
deriving DecidableEq, Repr

/-- The `apps.StatefulSet` fields the claim-relevant functions touch: the pod
template's containers and the volume-claim-template list. -/
structure StatefulSet where
  containers : List Container
  volumeClaimTemplates : List PersistentVolumeClaim
deriving DecidableEq, Repr

/-- `newVolumeMount` returns a volume mount with name and mount path. -/
def newVolumeMount (name mountPath : String) : VolumeMount :=
  { name := name, mountPath := mountPath }

/-- `getContainerByName` finds the first container of the pod template with
the given name. -/
def getContainerByName (statefulSet : StatefulSet) (name : String) : Option Container :=
  statefulSet.containers.find? (fun container => container.name == name)

/-- In-place mutation through the pointer returned by `getContainerByName`:
replace the first container with the given name by its updated value. -/
def updateFirstContainer (containers : List Container) (name : String)
    (f : Container → Container) : List Container :=
  match containers with
  | [] => []
  | c :: rest => if c.name == name then f c :: rest else c :: updateFirstContainer rest name f

/-- `ensurePortByName` on the port list: the Go loop updates the first port
with the given name in place (zeroing `HostPort`) and returns; when no port
matches, it appends a new named port. -/
def ensurePortsByName (ports : List ContainerPort) (name : String) (port : Int) :
    List ContainerPort :=
  match ports with
  | [] => [{ name := name, hostPort := 0, containerPort := port }]
  | p :: rest =>
    if p.name == name then { p with hostPort := 0, containerPort := port } :: rest
    else p :: ensurePortsByName rest name port

/-- `ensurePortByName` on a container. -/
def ensurePortByName (container : Container) (name : String) (port : Int) : Container :=
  { container with ports := ensurePortsByName container.ports name port }

/-- The per-container body of `ensureNamedPortsSpecified`: ensure the three
well-known ports at the host's assigned numbers, in source order. -/
def ensureNamedPortsOnContainer (container : Container) (host : ChiHost) : Container :=
  ensurePortByName
    (ensurePortByName
      (ensurePortByName container chDefaultTcpPortName host.tcpPort)
      chDefaultHttpPortName host.httpPort)
    chDefaultInterserverHttpPortName host.interserverHttpPort

/-- `ensureNamedPortsSpecified`: apply the per-container body to every
container of the StatefulSet's pod template. -/
def ensureNamedPortsSpecified (sts : StatefulSet) (host : ChiHost) : StatefulSet :=
  { sts with containers := sts.containers.map (fun container => ensureNamedPortsOnContainer container host) }

/-- The numbers of the ports carrying a given name in a container. -/
def namedPortNumbers (container : Container) (name : String) : List Int :=
  (container.ports.filter (fun p => p.name == name)).map ContainerPort.containerPort

/-- After `ensurePortsByName`, if at most one port carried the name before,
exactly one port carries it afterwards, at the new number. -/
theorem ensurePortsByName_filter_same (name : String) (port : Int) :
    ∀ ports : List ContainerPort,
      (ports.filter (fun p => p.name == name)).length ≤ 1 →
      ((ensurePortsByName ports name port).filter (fun p => p.name == name)).map
          ContainerPort.containerPort = [port]
  | [], _ => by simp [ensurePortsByName]
  | p :: rest, h => by
    by_cases hp : p.name = name
    · have hrest : rest.filter (fun p => p.name == name) = [] := by
        have := h
        simp only [List.filter_cons, hp, beq_self_eq_true, if_pos, ite_true, List.length_cons] at this
        exact List.eq_nil_of_length_eq_zero (by omega)
      simp [ensurePortsByName, hp, List.filter_cons, hrest]
    · have hne : (p.name == name) = false := by simp [hp]
      have hlen : (rest.filter (fun p => p.name == name)).length ≤ 1 := by
        simpa [List.filter_cons, hne] using h
      simp only [ensurePortsByName, hne, Bool.false_eq_true, if_neg, ite_false,
        List.filter_cons, List.map_cons]
      exact ensurePortsByName_filter_same name port rest hlen

/-- `ensurePortsByName` leaves ports of any other name untouched. -/
theorem ensurePortsByName_filter_other (name other : String) (port : Int) (hne : other ≠ name) :
    ∀ ports : List ContainerPort,
      (ensurePortsByName ports name port).filter (fun p => p.name == other) =
        ports.filter (fun p => p.name == other)
  | [] => by
    simp [ensurePortsByName, List.filter_cons, (by simpa using hne.symm : (name == other) = false)]
  | p :: rest => by
    by_cases hp : p.name = name
    · have hpo : (p.name == other) = false := by simp [hp, hne.symm]
      simp [ensurePortsByName, hp, List.filter_cons, hpo, hne.symm]
    · have hpn : (p.name == name) = false := by simp [hp]
      simp only [ensurePortsByName, hpn, Bool.false_eq_true, if_neg, ite_false, List.filter_cons]
      rw [ensurePortsByName_filter_other name other port hne rest]

/-- C3: for every StatefulSet, host and container of it, provided the container
declares at most one port per well-known name (as any valid container spec
does), after `ensureNamedPortsSpecified` the container's image in the result
carries exactly one port per well-known name, at the host's currently assigned
numbers — a pre-existing named port was overwritten, a missing one appended. -/
theorem c3_ensure_named_ports (sts : StatefulSet) (host : ChiHost) (container : Container)
    (hc : container ∈ sts.containers)
    (htcp : (container.ports.filter (fun p => p.name == chDefaultTcpPortName)).length ≤ 1)
    (hhttp : (container.ports.filter (fun p => p.name == chDefaultHttpPortName)).length ≤ 1)
    (hisv : (container.ports.filter
      (fun p => p.name == chDefaultInterserverHttpPortName)).length ≤ 1) :
    ensureNamedPortsOnContainer container host ∈ (ensureNamedPortsSpecified sts host).containers
  ∧ namedPortNumbers (ensureNamedPortsOnContainer container host) chDefaultTcpPortName =
      [host.tcpPort]
  ∧ namedPortNumbers (ensureNamedPortsOnContainer container host) chDefaultHttpPortName =
      [host.httpPort]
  ∧ namedPortNumbers (ensureNamedPortsOnContainer container host)
      chDefaultInterserverHttpPortName = [host.interserverHttpPort] := by
  have hth : chDefaultTcpPortName ≠ chDefaultHttpPortName := by decide
  have hti : chDefaultTcpPortName ≠ chDefaultInterserverHttpPortName := by decide
  have hhi : chDefaultHttpPortName ≠ chDefaultInterserverHttpPortName := by decide
  have hports : (ensureNamedPortsOnContainer container host).ports =
      ensurePortsByName
        (ensurePortsByName
          (ensurePortsByName container.ports chDefaultTcpPortName host.tcpPort)
          chDefaultHttpPortName host.httpPort)
        chDefaultInterserverHttpPortName host.interserverHttpPort := rfl
  refine ⟨?_, ?_, ?_, ?_⟩
  · unfold ensureNamedPortsSpecified
    exact List.mem_map_of_mem _ hc
  · rw [namedPortNumbers, hports,
      ensurePortsByName_filter_other chDefaultInterserverHttpPortName chDefaultTcpPortName
        host.interserverHttpPort hti,
      ensurePortsByName_filter_other chDefaultHttpPortName chDefaultTcpPortName
        host.httpPort hth]
    exact ensurePortsByName_filter_same chDefaultTcpPortName host.tcpPort container.ports htcp
  · rw [namedPortNumbers, hports,
      ensurePortsByName_filter_other chDefaultInterserverHttpPortName chDefaultHttpPortName
        host.interserverHttpPort hhi]
    refine ensurePortsByName_filter_same chDefaultHttpPortName host.httpPort _ ?_
    rw [ensurePortsByName_filter_other chDefaultTcpPortName chDefaultHttpPortName
      host.tcpPort hth.symm]
    exact hhttp
  · rw [namedPortNumbers, hports]
    refine ensurePortsByName_filter_same chDefaultInterserverHttpPortName
      host.interserverHttpPort _ ?_
    rw [ensurePortsByName_filter_other chDefaultHttpPortName chDefaultInterserverHttpPortName
        host.httpPort hhi.symm,
      ensurePortsByName_filter_other chDefaultTcpPortName chDefaultInterserverHttpPortName
        host.tcpPort hti.symm]
    exact hisv

/-- A hand-authored container declaring `tcp` at 9000 and no other well-known port. -/
def containerTcp9000 : Container :=
  { name := "clickhouse"
    ports := [{ name := "tcp", hostPort := 0, containerPort := 9000 }]
    volumeMounts := [] }

/-- A StatefulSet holding only that container. -/
def stsTcp9000 : StatefulSet :=
  { containers := [containerTcp9000], volumeClaimTemplates := [] }

/-- A host with `tcp` reassigned to 9001. -/
def hostTcp9001 : ChiHost :=
  { hostNoTemplate with tcpPort := 9001 }

/-- C3 witness: the claim theorem applied to a container with an existing
`tcp` port at 9000 and a host-assigned `tcp` of 9001 — the result carries
exactly one `tcp` port, at 9001, and the two missing well-known ports appended. -/
theorem c3_ensure_named_ports_witness :
    ensureNamedPortsOnContainer containerTcp9000 hostTcp9001 ∈
      (ensureNamedPortsSpecified stsTcp9000 hostTcp9001).containers
  ∧ namedPortNumbers (ensureNamedPortsOnContainer containerTcp9000 hostTcp9001)
      chDefaultTcpPortName = [9001]
  ∧ namedPortNumbers (ensureNamedPortsOnContainer containerTcp9000 hostTcp9001)
      chDefaultHttpPortName = [hostTcp9001.httpPort]
  ∧ namedPortNumbers (ensureNamedPortsOnContainer containerTcp9000 hostTcp9001)
      chDefaultInterserverHttpPortName = [hostTcp9001.interserverHttpPort] :=
  c3_ensure_named_ports stsTcp9000 hostTcp9001 containerTcp9000
    (by decide) (by decide) (by decide) (by decide)

/-- `statefulSetAppendVolumeClaimTemplate`: append a claim entry named after
the template unless one with that name is already listed (the Go nil-slice
initialization is invisible in the list model). -/
def statefulSetAppendVolumeClaimTemplate (statefulSet : StatefulSet)
    (volumeClaimTemplate : ChiVolumeClaimTemplate) : StatefulSet :=
  if statefulSet.volumeClaimTemplates.any (fun t => t.name == volumeClaimTemplate.name) then
    statefulSet
  else
    { statefulSet with
        volumeClaimTemplates :=
          statefulSet.volumeClaimTemplates ++
            [{ name := volumeClaimTemplate.name, specId := volumeClaimTemplate.specId }] }

/-- `setupStatefulSetApplyVolumeClaimTemplate` (the Go method returns an error
that is always nil, so the model returns the updated StatefulSet): sanity
checks on the names/path, resolve the template and the container, skip when
the template is already mounted by name or the mount path is occupied, else
append the claim entry and the volume mount. -/
def Creator.setupStatefulSetApplyVolumeClaimTemplate (chi : ClickHouseInstallation)
    (statefulSet : StatefulSet) (containerName volumeClaimTemplateName mountPath : String) :
    StatefulSet :=
  if volumeClaimTemplateName == "" then statefulSet
  else if mountPath == "" then statefulSet
  else if (chi.GetVolumeClaimTemplate volumeClaimTemplateName).isNone then statefulSet
  else
    match getContainerByName statefulSet containerName with
    | none => statefulSet
    | some container =>
      if container.volumeMounts.any (fun vm => vm.name == volumeClaimTemplateName) then
        statefulSet
      else if container.volumeMounts.any (fun vm => vm.mountPath == mountPath) then
        statefulSet
      else
        match chi.GetVolumeClaimTemplate volumeClaimTemplateName with
        | some template =>
          let sts1 := statefulSetAppendVolumeClaimTemplate statefulSet template
          { sts1 with
              containers :=
                updateFirstContainer sts1.containers containerName
                  (fun c => { c with volumeMounts :=
                    c.volumeMounts ++ [newVolumeMount volumeClaimTemplateName mountPath] }) }
        | none => statefulSet

/-- Finding by name after updating the first container of that name yields
the updated container, provided the update preserves the name. -/
theorem find?_updateFirstContainer (name : String) (g : Container → Container)
    (hg : ∀ c, (g c).name = c.name) :
    ∀ l : List Container,
      (updateFirstContainer l name g).find? (fun c => c.name == name) =
        (l.find? (fun c => c.name == name)).map g
  | [] => rfl
  | c :: rest => by
    by_cases hc : c.name = name
    · simp [updateFirstContainer, List.find?_cons, hc, hg c]
    · have hcb : (c.name == name) = false := by simp [hc]
      simp only [updateFirstContainer, hcb, Bool.false_eq_true, if_neg, ite_false]
      rw [List.find?_cons_of_neg _ (by simp [hc]), List.find?_cons_of_neg _ (by simp [hc])]
      exact find?_updateFirstContainer name g hg rest

/-- Appending a claim-template entry never changes the containers. -/
theorem statefulSetAppendVolumeClaimTemplate_containers (sts : StatefulSet)
    (t : ChiVolumeClaimTemplate) :
    (statefulSetAppendVolumeClaimTemplate sts t).containers = sts.containers := by
  unfold statefulSetAppendVolumeClaimTemplate
  split <;> rfl

/-- The volume-claim-mount step is a no-op when a sanity guard fires. -/
theorem setupApplyVCT_noop_guard (chi : ClickHouseInstallation) (sts : StatefulSet)
    (cn vn mp : String)
    (h : vn = "" ∨ mp = "" ∨ chi.GetVolumeClaimTemplate vn = none) :
    Creator.setupStatefulSetApplyVolumeClaimTemplate chi sts cn vn mp = sts := by
  unfold Creator.setupStatefulSetApplyVolumeClaimTemplate
  rcases h with h | h | h <;> simp [h]

/-- The volume-claim-mount step is a no-op when the container is missing. -/
theorem setupApplyVCT_noop_no_container (chi : ClickHouseInstallation) (sts : StatefulSet)
    (cn vn mp : String)
    (hfind : getContainerByName sts cn = none) :
    Creator.setupStatefulSetApplyVolumeClaimTemplate chi sts cn vn mp = sts := by
  unfold Creator.setupStatefulSetApplyVolumeClaimTemplate
  rw [hfind]
  simp

/-- The volume-claim-mount step is a no-op when the template is already
mounted by name in the container or the mount path is already occupied. -/
theorem setupApplyVCT_noop_mounted (chi : ClickHouseInstallation) (sts : StatefulSet)
    (cn vn mp : String) (c : Container)
    (hfind : getContainerByName sts cn = some c)
    (h : c.volumeMounts.any (fun vm => vm.name == vn) = true
       ∨ c.volumeMounts.any (fun vm => vm.mountPath == mp) = true) :
    Creator.setupStatefulSetApplyVolumeClaimTemplate chi sts cn vn mp = sts := by
  unfold Creator.setupStatefulSetApplyVolumeClaimTemplate
  rw [hfind]
  rcases h with h | h <;> simp [h]

/-- The active case of the volume-claim-mount step: all guards pass, so the
claim entry is appended and the mount added to the first matching container. -/
theorem setupApplyVCT_step (chi : ClickHouseInstallation) (sts : StatefulSet)
    (cn vn mp : String) (c : Container) (tmpl : ChiVolumeClaimTemplate)
    (h1 : vn ≠ "") (h2 : mp ≠ "")
    (h3 : chi.GetVolumeClaimTemplate vn = some tmpl)
    (hfind : getContainerByName sts cn = some c)
    (hname : c.volumeMounts.any (fun vm => vm.name == vn) = false)
    (hpath : c.volumeMounts.any (fun vm => vm.mountPath == mp) = false) :
    Creator.setupStatefulSetApplyVolumeClaimTemplate chi sts cn vn mp =
      { statefulSetAppendVolumeClaimTemplate sts tmpl with
          containers :=
            updateFirstContainer (statefulSetAppendVolumeClaimTemplate sts tmpl).containers cn
              (fun c => { c with
                volumeMounts := c.volumeMounts ++ [newVolumeMount vn mp] }) } := by
  unfold Creator.setupStatefulSetApplyVolumeClaimTemplate
  rw [hfind, h3]
  simp [h1, h2, hname, hpath]

/-- After the active step, looking the container up again yields it with the
new mount appended. -/
theorem getContainerByName_after_step (s : StatefulSet) (tmpl : ChiVolumeClaimTemplate)
    (cn vn mp : String) (c : Container)
    (hoc : getContainerByName s cn = some c) :
    getContainerByName
      { statefulSetAppendVolumeClaimTemplate s tmpl with
          containers :=
            updateFirstContainer (statefulSetAppendVolumeClaimTemplate s tmpl).containers cn
              (fun c => { c with
                volumeMounts := c.volumeMounts ++ [newVolumeMount vn mp] }) } cn =
      some { c with volumeMounts := c.volumeMounts ++ [newVolumeMount vn mp] } := by
  have hoc' : s.containers.find? (fun container => container.name == cn) = some c := hoc
  show (updateFirstContainer (statefulSetAppendVolumeClaimTemplate s tmpl).containers cn
      (fun c => { c with volumeMounts := c.volumeMounts ++ [newVolumeMount vn mp] })).find?
      (fun container => container.name == cn) =
    some { c with volumeMounts := c.volumeMounts ++ [newVolumeMount vn mp] }
  rw [find?_updateFirstContainer cn
      (fun c => { c with volumeMounts := c.volumeMounts ++ [newVolumeMount vn mp] })
      (fun c => rfl),
    statefulSetAppendVolumeClaimTemplate_containers, hoc']
  rfl

/-- C4: the volume-claim-mount step is idempotent — a second call with the
same container, template name and mount path changes nothing — and under the
conditions in which the first call mounts at all (template resolvable,
container present, name not yet mounted, path not yet occupied, claim name not
yet listed), two calls leave exactly one matching volume mount in the
container and exactly one claim entry of that name. -/
theorem c4_volume_claim_mount_idempotent (chi : ClickHouseInstallation) (sts : StatefulSet)
    (cn vn mp : String) :
    Creator.setupStatefulSetApplyVolumeClaimTemplate chi
        (Creator.setupStatefulSetApplyVolumeClaimTemplate chi sts cn vn mp) cn vn mp =
      Creator.setupStatefulSetApplyVolumeClaimTemplate chi sts cn vn mp
  ∧ (∀ c : Container, vn ≠ "" → mp ≠ "" →
      (chi.GetVolumeClaimTemplate vn).isSome = true →
      getContainerByName sts cn = some c →
      (∀ vm ∈ c.volumeMounts, vm.name ≠ vn) →
      (∀ vm ∈ c.volumeMounts, vm.mountPath ≠ mp) →
      (∀ t ∈ sts.volumeClaimTemplates, t.name ≠ vn) →
      ∃ container',
        getContainerByName
          (Creator.setupStatefulSetApplyVolumeClaimTemplate chi
            (Creator.setupStatefulSetApplyVolumeClaimTemplate chi sts cn vn mp) cn vn mp) cn =
          some container'
        ∧ (container'.volumeMounts.filter
            (fun vm => vm.name == vn && vm.mountPath == mp)).length = 1
        ∧ ((Creator.setupStatefulSetApplyVolumeClaimTemplate chi
              (Creator.setupStatefulSetApplyVolumeClaimTemplate chi sts cn vn mp) cn vn
                mp).volumeClaimTemplates.filter
            (fun t => t.name == vn)).length = 1) := by
  have hidem : ∀ s : StatefulSet,
      Creator.setupStatefulSetApplyVolumeClaimTemplate chi
        (Creator.setupStatefulSetApplyVolumeClaimTemplate chi s cn vn mp) cn vn mp =
        Creator.setupStatefulSetApplyVolumeClaimTemplate chi s cn vn mp := by
    intro s
    by_cases hg : vn = "" ∨ mp = "" ∨ chi.GetVolumeClaimTemplate vn = none
    · rw [setupApplyVCT_noop_guard chi s cn vn mp hg]
      exact setupApplyVCT_noop_guard chi s cn vn mp hg
    · push_neg at hg
      obtain ⟨hv, hm, ht⟩ := hg
      obtain ⟨tmpl, htm⟩ := Option.ne_none_iff_exists'.mp ht
      rcases hoc : getContainerByName s cn with _ | c
      · rw [setupApplyVCT_noop_no_container chi s cn vn mp hoc]
        exact setupApplyVCT_noop_no_container chi s cn vn mp hoc
      · by_cases hmn : c.volumeMounts.any (fun vm => vm.name == vn) = true
        · rw [setupApplyVCT_noop_mounted chi s cn vn mp c hoc (Or.inl hmn)]
          exact setupApplyVCT_noop_mounted chi s cn vn mp c hoc (Or.inl hmn)
        · by_cases hmp : c.volumeMounts.any (fun vm => vm.mountPath == mp) = true
          · rw [setupApplyVCT_noop_mounted chi s cn vn mp c hoc (Or.inr hmp)]
            exact setupApplyVCT_noop_mounted chi s cn vn mp c hoc (Or.inr hmp)
          · have hname : c.volumeMounts.any (fun vm => vm.name == vn) = false := by
              simpa using hmn
            have hpath : c.volumeMounts.any (fun vm => vm.mountPath == mp) = false := by
              simpa using hmp
            rw [setupApplyVCT_step chi s cn vn mp c tmpl hv hm htm hoc hname hpath]
            exact setupApplyVCT_noop_mounted chi _ cn vn mp _
              (getContainerByName_after_step s tmpl cn vn mp c hoc)
              (Or.inl (by simp [newVolumeMount]))
  refine ⟨hidem sts, ?_⟩
  intro c hv hm htsome hoc hnomount hnopath hnovct
  obtain ⟨tmpl, htm⟩ := Option.isSome_iff_exists.mp htsome
  have htname : tmpl.name = vn := by
    have h := List.find?_some
      (show chi.volumeClaimTemplates.find? (fun t => t.name == vn) = some tmpl from htm)
    simpa using h
  have hname : c.volumeMounts.any (fun vm => vm.name == vn) = false := by
    rw [List.any_eq_false]
    intro vm hvm
    simp [hnomount vm hvm]
  have hpath : c.volumeMounts.any (fun vm => vm.mountPath == mp) = false := by
    rw [List.any_eq_false]
    intro vm hvm
    simp [hnopath vm hvm]
  have hvctany : sts.volumeClaimTemplates.any (fun t => t.name == tmpl.name) = false := by
    rw [List.any_eq_false]
    intro t htl
    simp [htname, hnovct t htl]
  have happ : statefulSetAppendVolumeClaimTemplate sts tmpl =
      { sts with
          volumeClaimTemplates :=
            sts.volumeClaimTemplates ++ [{ name := tmpl.name, specId := tmpl.specId }] } := by
    unfold statefulSetAppendVolumeClaimTemplate
    rw [hvctany]
    simp
  rw [hidem sts, setupApplyVCT_step chi sts cn vn mp c tmpl hv hm htm hoc hname hpath]
  refine ⟨{ c with volumeMounts := c.volumeMounts ++ [newVolumeMount vn mp] },
    getContainerByName_after_step sts tmpl cn vn mp c hoc, ?_, ?_⟩
  · rw [List.filter_append]
    have hold : c.volumeMounts.filter (fun vm => vm.name == vn && vm.mountPath == mp) = [] := by
      rw [List.filter_eq_nil_iff]
      intro vm hvm
      simp [hnomount vm hvm]
    rw [hold]
    simp [newVolumeMount]
  · show (((statefulSetAppendVolumeClaimTemplate sts tmpl).volumeClaimTemplates).filter
      (fun t => t.name == vn)).length = 1
    rw [happ]
    show ((sts.volumeClaimTemplates ++
        [({ name := tmpl.name, specId := tmpl.specId } : PersistentVolumeClaim)]).filter
      (fun t => t.name == vn)).length = 1
    rw [List.filter_append]
    have hold : sts.volumeClaimTemplates.filter (fun t => t.name == vn) = [] := by
      rw [List.filter_eq_nil_iff]
      intro t htl
      simp [hnovct t htl]
    rw [hold]
    simp [htname]

/-- An installation declaring one volume-claim template, used by the C4 witness. -/
def chiOneVct : ClickHouseInstallation :=
  { nspace := "test"
    chiServiceTemplate := none
    volumeClaimTemplates := [{ name := "data-vct", specId := 1 }] }

/-- A StatefulSet with one bare container, used by the C4 witness. -/
def stsOneContainer : StatefulSet :=
  { containers := [{ name := "clickhouse", ports := [], volumeMounts := [] }]
    volumeClaimTemplates := [] }

/-- C4 witness: the claim theorem applied to a concrete installation,
StatefulSet, container, template name and mount path. -/
theorem c4_volume_claim_mount_idempotent_witness :
    ∃ container',
      getContainerByName
        (Creator.setupStatefulSetApplyVolumeClaimTemplate chiOneVct
          (Creator.setupStatefulSetApplyVolumeClaimTemplate chiOneVct stsOneContainer
            "clickhouse" "data-vct" "/var/lib/clickhouse")
          "clickhouse" "data-vct" "/var/lib/clickhouse") "clickhouse" = some container'
      ∧ (container'.volumeMounts.filter
          (fun vm => vm.name == "data-vct" && vm.mountPath == "/var/lib/clickhouse")).length = 1
      ∧ ((Creator.setupStatefulSetApplyVolumeClaimTemplate chiOneVct
            (Creator.setupStatefulSetApplyVolumeClaimTemplate chiOneVct stsOneContainer
              "clickhouse" "data-vct" "/var/lib/clickhouse")
            "clickhouse" "data-vct" "/var/lib/clickhouse").volumeClaimTemplates.filter
          (fun t => t.name == "data-vct")).length = 1 :=
  (c4_volume_claim_mount_idempotent chiOneVct stsOneContainer
      "clickhouse" "data-vct" "/var/lib/clickhouse").2
    { name := "clickhouse", ports := [], volumeMounts := [] }
    (by decide) (by decide) (by decide) (by decide)
    (by decide) (by decide) (by decide)

/-! ## Service reconciliation (controller/chi/worker-service.go) -/

/-- Modelled from the spec: `util.MergeStringMapsPreserve` is outside the
sampled sources. Per §4.5 of the spec the merge is additive, preserving the
desired object's own entries and carrying over the current object's entries
that the desired one doesn't explicitly override. -/
def mergeStringMapsPreserve (dst src : List (String × String)) : List (String × String) :=
  dst ++ src.filter (fun kv => !(dst.any (fun d => d.1 == kv.1)))

/-- Modelled from the spec: `util.MergeStringArrays` is outside the sampled
sources; finalizers are merged additively in the same preserve fashion. -/
def mergeStringArrays (dst src : List String) : List String :=
  dst ++ src.filter (fun s => !(dst.contains s))

/-- The outcome of the pure part of `worker.updateService`: either fail fast
(nothing submitted to the platform) or submit the migrated object. -/
inductive ServiceUpdateDecision where
  | fail (msg : String)
  | submit (newService : Service)
deriving DecidableEq, Repr

/-- The field migration of `worker.updateService`: start from a deep copy of
the target, then migrate forward from the current service the fields the
platform assigns or that are sticky — resource version, cluster IP, exposed
port details (for NodePort/LoadBalancer, matched by port number),
health-check node port (under unchanged Local external-traffic policy), the
load-balancer class once set — and merge labels/annotations/finalizers
additively, preserving the current object's extras. -/
def migrateServiceFields (curService targetService : Service) : Service :=
  let newService :=
    { targetService with
        meta := { targetService.meta with resourceVersion := curService.meta.resourceVersion } }
  let newService :=
    { newService with spec := { newService.spec with clusterIP := curService.spec.clusterIP } }
  let serviceTypeIsNodePort :=
    curService.spec.type == "NodePort" && newService.spec.type == "NodePort"
  let serviceTypeIsLoadBalancer :=
    curService.spec.type == "LoadBalancer" && newService.spec.type == "LoadBalancer"
  let newPorts :=
    if serviceTypeIsNodePort || serviceTypeIsLoadBalancer then
      newService.spec.ports.map (fun newPort =>
        match curService.spec.ports.find? (fun curPort => curPort.port == newPort.port) with
        | some curPort => curPort
        | none => newPort)
    else newService.spec.ports
  let newService := { newService with spec := { newService.spec with ports := newPorts } }
  let newService :=
    if curService.spec.externalTrafficPolicy == "Local"
        && newService.spec.externalTrafficPolicy == "Local" then
      { newService with
          spec := { newService.spec with
            healthCheckNodePort := curService.spec.healthCheckNodePort } }
    else newService
  let newService :=
    match curService.spec.loadBalancerClass with
    | some cls =>
      { newService with spec := { newService.spec with loadBalancerClass := some cls } }
    | none => newService
  { newService with
      meta :=
        { newService.meta with
            labels := mergeStringMapsPreserve newService.meta.labels curService.meta.labels
            annotations :=
              mergeStringMapsPreserve newService.meta.annotations curService.meta.annotations
            finalizers := mergeStringArrays newService.meta.finalizers curService.meta.finalizers } }

/-- The decision logic of `worker.updateService` up to the platform call: a
service type change fails fast with a descriptive error and nothing is
submitted; otherwise the migrated object is submitted. -/
def updateServicePlan (curService targetService : Service) : ServiceUpdateDecision :=
  if curService.spec.type ≠ targetService.spec.type then
    .fail ("just recreate the service in case of service type change '" ++
      curService.spec.type ++ "'=>'" ++ targetService.spec.type ++ "'")
  else
    .submit (migrateServiceFields curService targetService)

/-- An action the reconcile step performs against the platform, in order. -/
inductive ReconcileAction where
  | updateSubmitted (s : Service)
  | deleteAttempt (nspace name : String)
  | createAttempt (s : Service)
deriving DecidableEq, Repr

/-- The platform responses for one reconcile pass over one service: the
lookup outcome, and the results the platform returns to a submitted update
and to a create. -/
structure ServicePlatform where
  lookup : Except String Service
  updateResult : Option String
  createResult : Option String

/-- `worker.reconcileService`: when the context is done, do nothing. Else look
up the current service; when found, run the update path; if that (or the
lookup) left an error, best-effort delete any remnant and attempt exactly one
create, whose outcome becomes the step's result. Returns the platform actions
in order together with the step's error result. -/
def reconcileService (p : ServicePlatform) (ctxDone : Bool) (targetService : Service) :
    List ReconcileAction × Option String :=
  if ctxDone then ([], none)
  else
    let afterUpdate :=
      match p.lookup with
      | .ok curService =>
        match updateServicePlan curService targetService with
        | .fail msg => (([] : List ReconcileAction), some msg)
        | .submit newService => ([.updateSubmitted newService], p.updateResult)
      | .error e => (([] : List ReconcileAction), some e)
    match afterUpdate.2 with
    | some _ =>
      (afterUpdate.1 ++
        [.deleteAttempt targetService.meta.nspace targetService.meta.name,
         .createAttempt targetService],
       p.createResult)
    | none => afterUpdate

/-- Characterization of the migrated spec: cluster IP comes from the current
service, ports are reused by number for node-ported/load-balanced services,
the health-check node port is kept under unchanged Local traffic policy, and
an existing load-balancer class is carried over; all other spec fields are the
target's. -/
theorem migrateServiceFields_spec (curService targetService : Service) :
    (migrateServiceFields curService targetService).spec =
      { ports :=
          if (curService.spec.type == "NodePort" && targetService.spec.type == "NodePort")
              || (curService.spec.type == "LoadBalancer"
                  && targetService.spec.type == "LoadBalancer") then
            targetService.spec.ports.map (fun newPort =>
              match curService.spec.ports.find? (fun curPort => curPort.port == newPort.port) with
              | some curPort => curPort
              | none => newPort)
          else targetService.spec.ports
        selector := targetService.spec.selector
        clusterIP := curService.spec.clusterIP
        type := targetService.spec.type
        externalTrafficPolicy := targetService.spec.externalTrafficPolicy
        healthCheckNodePort :=
          if curService.spec.externalTrafficPolicy == "Local"
              && targetService.spec.externalTrafficPolicy == "Local" then
            curService.spec.healthCheckNodePort
          else targetService.spec.healthCheckNodePort
        loadBalancerClass :=
          match curService.spec.loadBalancerClass with
          | some cls => some cls
          | none => targetService.spec.loadBalancerClass
        publishNotReadyAddresses := targetService.spec.publishNotReadyAddresses } := by
  unfold migrateServiceFields
  by_cases hnp : ((curService.spec.type == "NodePort" && targetService.spec.type == "NodePort")
      || (curService.spec.type == "LoadBalancer"
          && targetService.spec.type == "LoadBalancer")) = true
  · by_cases hhc : (curService.spec.externalTrafficPolicy == "Local"
        && targetService.spec.externalTrafficPolicy == "Local") = true
    · cases hlb : curService.spec.loadBalancerClass <;> simp [hnp, hhc, hlb]
    · cases hlb : curService.spec.loadBalancerClass <;> simp [hnp, hhc, hlb]
  · by_cases hhc : (curService.spec.externalTrafficPolicy == "Local"
        && targetService.spec.externalTrafficPolicy == "Local") = true
    · cases hlb : curService.spec.loadBalancerClass <;> simp [hnp, hhc, hlb]
    · cases hlb : curService.spec.loadBalancerClass <;> simp [hnp, hhc, hlb]

/-- C5: for current and target services of the same exposure type, the object
submitted to the platform carries the current service's assigned cluster IP
(whatever address the target was built with); an existing port entry (with
its auto-assigned node port) is reused whenever both services are NodePort or
both LoadBalancer and the port number matches; the health-check node port is
kept under unchanged Local external-traffic policy; and an existing
load-balancer class is carried over. -/
theorem c5_update_migrates_platform_fields (curService targetService : Service)
    (hty : curService.spec.type = targetService.spec.type) :
    ∃ s, updateServicePlan curService targetService = .submit s
      ∧ s.spec.clusterIP = curService.spec.clusterIP
      ∧ ((curService.spec.type = "NodePort" ∨ curService.spec.type = "LoadBalancer") →
          ∀ tp ∈ targetService.spec.ports, ∀ cp,
            curService.spec.ports.find? (fun curPort => curPort.port == tp.port) = some cp →
            cp ∈ s.spec.ports)
      ∧ (curService.spec.externalTrafficPolicy = "Local" →
          targetService.spec.externalTrafficPolicy = "Local" →
          s.spec.healthCheckNodePort = curService.spec.healthCheckNodePort)
      ∧ (∀ cls, curService.spec.loadBalancerClass = some cls →
          s.spec.loadBalancerClass = some cls) := by
  have hsubmit : updateServicePlan curService targetService =
      .submit (migrateServiceFields curService targetService) := by
    unfold updateServicePlan
    rw [if_neg (by simp [hty])]
  refine ⟨migrateServiceFields curService targetService, hsubmit, ?_, ?_, ?_, ?_⟩
  · rw [migrateServiceFields_spec]
  · intro htype tp htp cp hcp
    have hcond : ((curService.spec.type == "NodePort" && targetService.spec.type == "NodePort")
        || (curService.spec.type == "LoadBalancer"
            && targetService.spec.type == "LoadBalancer")) = true := by
      rcases htype with h | h <;> rw [← hty, h] <;> simp
    have hports : (migrateServiceFields curService targetService).spec.ports =
        targetService.spec.ports.map (fun newPort =>
          match curService.spec.ports.find? (fun curPort => curPort.port == newPort.port) with
          | some curPort => curPort
          | none => newPort) := by
      rw [migrateServiceFields_spec]
      simp [hcond]
    rw [hports]
    have hmem := List.mem_map_of_mem (fun newPort =>
      match curService.spec.ports.find? (fun curPort => curPort.port == newPort.port) with
      | some curPort => curPort
      | none => newPort) htp
    simpa [hcp] using hmem
  · intro hcur htar
    rw [migrateServiceFields_spec]
    simp [hcur, htar]
  · intro cls hcls
    rw [migrateServiceFields_spec]
    simp [hcls]

/-- The current service of the C5 witness: LoadBalancer with assigned
cluster IP 10.0.0.5, an auto-assigned node port, Local traffic policy and a
load-balancer class. -/
def curServiceW : Service :=
  { meta :=
      { name := "svc", nspace := "test", labels := [], annotations := [], finalizers := []
        resourceVersion := "41" }
    spec :=
      { ports := [{ name := "http", protocol := "TCP", port := 8123, nodePort := 30123
                    targetPort := .ofInt 8123 }]
        selector := [], clusterIP := "10.0.0.5", type := "LoadBalancer"
        externalTrafficPolicy := "Local", healthCheckNodePort := 32001
        loadBalancerClass := some "internal-lb", publishNotReadyAddresses := false } }

/-- The desired service of the C5 witness: same exposure type, built with an
empty address field and no node port assigned. -/
def targetServiceW : Service :=
  { meta :=
      { name := "svc", nspace := "test", labels := [], annotations := [], finalizers := []
        resourceVersion := "" }
    spec :=
      { ports := [{ name := "http", protocol := "TCP", port := 8123, nodePort := 0
                    targetPort := .ofInt 8123 }]
        selector := [], clusterIP := "", type := "LoadBalancer"
        externalTrafficPolicy := "Local", healthCheckNodePort := 0
        loadBalancerClass := none, publishNotReadyAddresses := false } }

/-- C5 witness: the claim theorem applied to the concrete pair of services,
with every hypothesis discharged there. -/
theorem c5_update_migrates_platform_fields_witness :
    ∃ s, updateServicePlan curServiceW targetServiceW = .submit s
      ∧ s.spec.clusterIP = "10.0.0.5"
      ∧ ({ name := "http", protocol := "TCP", port := 8123, nodePort := 30123
           targetPort := .ofInt 8123 } : ServicePort) ∈ s.spec.ports
      ∧ s.spec.healthCheckNodePort = 32001
      ∧ s.spec.loadBalancerClass = some "internal-lb" := by
  obtain ⟨s, hs, hip, hports, hhc, hlb⟩ :=
    c5_update_migrates_platform_fields curServiceW targetServiceW rfl
  refine ⟨s, hs, hip, ?_, hhc rfl rfl, hlb "internal-lb" rfl⟩
  exact hports (Or.inr rfl)
    { name := "http", protocol := "TCP", port := 8123, nodePort := 0, targetPort := .ofInt 8123 }
    (by decide) _ (by decide)

/-- C6: when the lookup fails (service not found) or the current service's
exposure type differs from the target's, the update path submits no patch —
in the type-change case it fails fast with the descriptive error naming both
types — and the reconcile step performs a best-effort delete followed by
exactly one create attempt, whose outcome is the result of the step. -/
theorem c6_reconcile_falls_back_to_recreate (p : ServicePlatform) (targetService : Service)
    (h : (∃ e, p.lookup = .error e)
       ∨ (∃ curService, p.lookup = .ok curService
            ∧ curService.spec.type ≠ targetService.spec.type)) :
    (reconcileService p false targetService).1 =
      [.deleteAttempt targetService.meta.nspace targetService.meta.name,
       .createAttempt targetService]
  ∧ (∀ s, ReconcileAction.updateSubmitted s ∉ (reconcileService p false targetService).1)
  ∧ (reconcileService p false targetService).2 = p.createResult
  ∧ (∀ curService, p.lookup = .ok curService →
      curService.spec.type ≠ targetService.spec.type →
      updateServicePlan curService targetService =
        .fail ("just recreate the service in case of service type change '" ++
          curService.spec.type ++ "'=>'" ++ targetService.spec.type ++ "'")) := by
  have hfail : ∀ curService : Service, curService.spec.type ≠ targetService.spec.type →
      updateServicePlan curService targetService =
        .fail ("just recreate the service in case of service type change '" ++
          curService.spec.type ++ "'=>'" ++ targetService.spec.type ++ "'") := by
    intro curService hne
    unfold updateServicePlan
    rw [if_pos hne]
  have hrun : reconcileService p false targetService =
      ([.deleteAttempt targetService.meta.nspace targetService.meta.name,
        .createAttempt targetService], p.createResult) := by
    rcases h with ⟨e, he⟩ | ⟨curService, hcur, hne⟩
    · unfold reconcileService
      rw [he]
      simp
    · unfold reconcileService
      rw [hcur]
      simp [hfail curService hne]
  refine ⟨?_, ?_, ?_, ?_⟩
  · rw [hrun]
  · intro s
    rw [hrun]
    simp
  · rw [hrun]
  · intro curService hcur hne
    exact hfail curService hne

/-- The platform of the C6 witness: the current service exists but with a
different exposure type (ClusterIP) than the target (LoadBalancer); the
create succeeds. -/
def platformTypeChange : ServicePlatform :=
  { lookup := .ok { curServiceW with
      spec := { curServiceW.spec with type := "ClusterIP" } }
    updateResult := none
    createResult := none }

/-- C6 witness: the claim theorem applied to a concrete platform whose current
service has a changed exposure type. -/
theorem c6_reconcile_falls_back_to_recreate_witness :
    (reconcileService platformTypeChange false targetServiceW).1 =
      [.deleteAttempt targetServiceW.meta.nspace targetServiceW.meta.name,
       .createAttempt targetServiceW]
  ∧ (reconcileService platformTypeChange false targetServiceW).2 =
      platformTypeChange.createResult
  ∧ updateServicePlan { curServiceW with
        spec := { curServiceW.spec with type := "ClusterIP" } } targetServiceW =
      .fail ("just recreate the service in case of service type change '" ++
        "ClusterIP" ++ "'=>'" ++ "LoadBalancer" ++ "'") := by
  obtain ⟨hacts, _, hres, hplan⟩ :=
    c6_reconcile_falls_back_to_recreate platformTypeChange targetServiceW
      (Or.inr ⟨_, rfl, by decide⟩)
  exact ⟨hacts, hres, hplan _ rfl (by decide)⟩
